import Mathlib

/-!
# Shallow embedding of the baseview window lifecycle engine

This file embeds the window-lifecycle and event-normalization engine of the
repository (files `src/win/window.rs`, `src/macos/window.rs`, `src/window.rs`,
`src/window_open_options.rs`) and proves or refutes the frozen claims about it.

Modelling conventions:
* Native pointers (`HWND`, `id`, `*mut WindowState`) are modelled by their
  presence (`Option`/`Bool`); the per-window association slot
  (`GWLP_USERDATA` / `BASEVIEW_STATE_IVAR`) is an `Option` of the state record.
* The application handler, the keyboard collaborator and the cursor
  collaborator are external per the spec; a handler invocation is recorded as
  an action in an emitted trace instead of being executed.
* `f64` values (logical sizes, scale factors, wheel deltas) are modelled by
  `ℚ`; integer pixel quantities (`u32`/`u16`) by `ℕ`, signed coordinates
  (`i16`/`i32`) by `ℤ`.
* A Rust `panic!` (in particular `RefCell::borrow_mut` on an already borrowed
  cell) is modelled by `Except.error`.
-/

namespace Baseview

/-- Logical size in (fractional) points, `baseview::Size { width: f64, height: f64 }`. -/
structure Size where
  width : ℚ
  height : ℚ
deriving DecidableEq, Repr

/-- Physical size in integer pixels, `baseview::PhySize { width: u32, height: u32 }`. -/
structure PhySize where
  width : ℕ
  height : ℕ
deriving DecidableEq, Repr

/-- Physical point, `baseview::PhyPoint { x: i32, y: i32 }`. -/
structure PhyPoint where
  x : ℤ
  y : ℤ
deriving DecidableEq, Repr

/-- Logical point (fractional coordinates). -/
structure Point where
  x : ℚ
  y : ℚ
deriving DecidableEq, Repr

/-- Modelled from the spec: rounding "to nearest integer pixel" (§8) used when a
logical size is converted to physical pixels.  Rust's `f64::round` rounds
half-way cases away from zero; sizes are non-negative, where this agrees with
`⌊q + 1/2⌋`. -/
def roundNearest (q : ℚ) : ℤ := ⌊q + 1/2⌋

/-- Modelled from the spec: `WindowInfo` — "physical size, logical size, scale
factor; derived, not independently mutable" (§3).  The DPI-rectangle arithmetic
helper that implements it (`dpi.rs`) is not under `src/`; only its callers are. -/
structure WindowInfo where
  logical_size : Size
  physical_size : PhySize
  scale : ℚ
deriving DecidableEq, Repr

/-- Modelled from the spec: construct a `WindowInfo` from a logical size and a
scale factor; the physical size is the logical size times the scale factor,
rounded to the nearest integer pixel (§3 invariant, §8 rounding). -/
def WindowInfo.from_logical_size (logical : Size) (scale : ℚ) : WindowInfo :=
  { logical_size := logical
    physical_size :=
      { width := (roundNearest (logical.width * scale)).toNat
        height := (roundNearest (logical.height * scale)).toNat }
    scale := scale }

/-- Modelled from the spec: construct a `WindowInfo` from a physical size and a
scale factor; the logical size is the physical size divided by the scale factor. -/
def WindowInfo.from_physical_size (physical : PhySize) (scale : ℚ) : WindowInfo :=
  { logical_size := { width := (physical.width : ℚ) / scale, height := (physical.height : ℚ) / scale }
    physical_size := physical
    scale := scale }

/-- Modelled from the spec: physical-to-logical coordinate conversion "via the
current scale factor at normalization time" (§4.1), used by `wnd_proc` for
`WM_MOUSEMOVE`. -/
def PhyPoint.to_logical (p : PhyPoint) (info : WindowInfo) : Point :=
  { x := (p.x : ℚ) / info.scale, y := (p.y : ℚ) / info.scale }

/-- `baseview::MouseButton` (the variants used by the Windows adapter). -/
inductive MouseButton
  | Left
  | Middle
  | Right
  | Back
  | Forward
deriving DecidableEq, Repr

/-- `baseview::ScrollDelta` (only the `Lines` variant is produced by the embedded code). -/
inductive ScrollDelta
  | Lines (x : ℚ) (y : ℚ)
deriving DecidableEq, Repr

/-- `baseview::MouseEvent` (the variants produced by the embedded code). -/
inductive MouseEvent
  | CursorMoved (position : Point)
  | ButtonPressed (button : MouseButton)
  | ButtonReleased (button : MouseButton)
  | WheelScrolled (delta : ScrollDelta)
deriving DecidableEq, Repr

/-- `baseview::WindowEvent` (the variants produced by the embedded code). -/
inductive WindowEvent
  | Resized (info : WindowInfo)
  | WillClose
deriving DecidableEq, Repr

/-- `baseview::Event`.  Keyboard payloads come from the external keyboard
collaborator and are treated as opaque. -/
inductive Event
  | Window (e : WindowEvent)
  | Mouse (e : MouseEvent)
  | Keyboard (payload : ℕ)
deriving DecidableEq, Repr

/-- `baseview::WindowScalePolicy`. -/
inductive WindowScalePolicy
  | SystemScaleFactor
  | ScaleFactor (scale : ℚ)
deriving DecidableEq, Repr

/-! ## Windows adapter (`src/win/window.rs`) -/

namespace Win

/-- The native messages the window procedure `wnd_proc` distinguishes.
`wmMouseButton` covers the eight `WM_{L,M,R,X}BUTTON{DOWN,UP}` arms: the
`button` field is the result of the source's `match msg`/`GET_XBUTTON_WPARAM`
mapping (`none` when an extended-button message carries an unknown
`XBUTTON` code).  `bvWindowMustClose` is the user message `WM_USER + 1`. -/
inductive Msg
  | wmCreate
  | wmMouseMove (x y : ℤ)
  | wmMouseWheel (value : ℤ)
  | wmMouseButton (button : Option MouseButton) (isDown : Bool)
  | wmTimer (wparam : ℕ)
  | wmClose
  | wmKeyboard (isSysKeyDown : Bool) (payload : ℕ)
  | wmSize (width height : ℕ)
  | wmDpiChanged (dpi : ℕ)
  | wmNcDestroy
  | bvWindowMustClose
  | wmOther
deriving DecidableEq, Repr

/-- Observable actions of the Windows adapter: native calls and handler
invocations, in program order.  `freeState` would be emitted by a
`Box::from_raw` of the slot pointer; the embedded source contains that call
only as a commented-out line in the `WM_NCDESTROY` arm, so no arm of
`wnd_proc` emits it. -/
inductive Act
  | postShowWindow
  | onEvent (e : Event)
  | onFrame
  | setCapture
  | releaseCapture
  | adjustWindowRect
  | setWindowPos (width height : ℕ)
  | unregisterClass (atom : ℕ)
  | clearSlot
  | destroyWindow
  | defWindowProc (msg : Msg)
  | freeState
deriving DecidableEq, Repr

/-- A Rust panic inside the window procedure.  `borrowMut` is the
`BorrowMutError` raised by `RefCell::borrow_mut` on an already borrowed cell. -/
inductive RustPanic
  | borrowMut
deriving DecidableEq, Repr

/-- `win::WindowState` (the fields the embedded logic reads or writes; the
handler and the keyboard collaborator are external, `window_class` and
`dw_style` are opaque numbers). -/
structure WindowState where
  window_class : ℕ
  window_info : WindowInfo
  parent_handle : Bool
  mouse_button_counter : ℕ
  scale_policy : WindowScalePolicy
  dw_style : ℕ
deriving DecidableEq, Repr

/-- The per-window native machine: the `GWLP_USERDATA` association slot
(`none` models a null pointer), the `RefCell` borrow flag at message delivery
(`true` when an outer callback still holds the exclusive borrow), and the
value of the shared `Arc<AtomicBool>` open flag. -/
structure Machine where
  slot : Option WindowState
  borrowed : Bool
  is_open : Bool
deriving DecidableEq, Repr

/-- The window procedure `wnd_proc` of `src/win/window.rs`, as a function from
a machine and one delivered message to either a Rust panic or the updated
machine plus the trace of native calls and handler invocations.

Faithfulness notes:
* `WM_CREATE` is handled before the slot is read; every other arm runs only
  when the slot is non-null, otherwise the message goes to `DefWindowProcW`.
* Each dispatching arm opens with `RefCell::try_borrow_mut`; the `WM_TIMER`
  and keyboard arms then perform a second, unconditional
  `RefCell::borrow_mut` while the guard from the `try_borrow_mut` is still
  live, which panics with `BorrowMutError` (`Except.error .borrowMut`).
* The mouse-button, keyboard, `WM_SIZE`, `WM_DPICHANGED` and `WM_NCDESTROY`
  arms fall through to the trailing `DefWindowProcW` call; the arms that end
  in `return 0` do not.
* `mouse_button_counter` is a `usize` updated with `saturating_add(1)` /
  `saturating_sub(1)`; it is modelled as `ℕ` with `+ 1` and truncated `- 1`
  (which agrees with the saturating operations below `usize::MAX`). -/
def wnd_proc (m : Machine) (msg : Msg) : Except RustPanic (Machine × List Act) :=
  if msg = .wmCreate then
    .ok (m, [.postShowWindow])
  else
    match m.slot with
    | none => .ok (m, [.defWindowProc msg])
    | some st =>
      match msg with
      | .wmMouseMove x y =>
          if m.borrowed then
            .ok (m, [])
          else
            .ok (m, [.onEvent (.Mouse (.CursorMoved
              (PhyPoint.to_logical ⟨x, y⟩ st.window_info)))])
      | .wmMouseWheel value =>
          if m.borrowed then
            .ok (m, [])
          else
            .ok (m, [.onEvent (.Mouse (.WheelScrolled
              (.Lines 0 ((value : ℚ) / 120))))])
      | .wmMouseButton button isDown =>
          if m.borrowed then
            .ok (m, [.defWindowProc msg])
          else
            match button with
            | none => .ok (m, [.defWindowProc msg])
            | some b =>
                if isDown then
                  let counter := st.mouse_button_counter + 1
                  .ok ({ m with slot := some { st with mouse_button_counter := counter } },
                    [.setCapture, .onEvent (.Mouse (.ButtonPressed b)), .defWindowProc msg])
                else
                  let counter := st.mouse_button_counter - 1
                  .ok ({ m with slot := some { st with mouse_button_counter := counter } },
                    (if counter = 0 then [.releaseCapture] else [])
                      ++ [.onEvent (.Mouse (.ButtonReleased b)), .defWindowProc msg])
      | .wmTimer _ =>
          if m.borrowed then
            .ok (m, [])
          else
            .error .borrowMut
      | .wmClose =>
          if m.borrowed then
            .ok (m, [.defWindowProc .wmClose])
          else
            .ok (m, [.onEvent (.Window .WillClose), .defWindowProc .wmClose])
      | .wmKeyboard _ _ =>
          if m.borrowed then
            .ok (m, [.defWindowProc msg])
          else
            .error .borrowMut
      | .wmSize width height =>
          if m.borrowed then
            .ok (m, [.defWindowProc msg])
          else
            let info := WindowInfo.from_physical_size ⟨width, height⟩ st.window_info.scale
            .ok ({ m with slot := some { st with window_info := info } },
              [.onEvent (.Window (.Resized info)), .defWindowProc msg])
      | .wmDpiChanged dpi =>
          if m.borrowed then
            .ok (m, [.defWindowProc msg])
          else
            match st.scale_policy with
            | .SystemScaleFactor =>
                let scale_factor := (dpi : ℚ) / 96
                let info := WindowInfo.from_logical_size st.window_info.logical_size scale_factor
                .ok ({ m with slot := some { st with window_info := info } },
                  [.adjustWindowRect,
                   .setWindowPos info.physical_size.width info.physical_size.height,
                   .defWindowProc msg])
            | .ScaleFactor _ => .ok (m, [.defWindowProc msg])
      | .wmNcDestroy =>
          if m.borrowed then
            .ok (m, [.defWindowProc msg])
          else
            .ok ({ m with slot := none },
              [.unregisterClass st.window_class, .clearSlot, .defWindowProc msg])
      | .bvWindowMustClose =>
          .ok (m, [.destroyWindow])
      | .wmCreate => .ok (m, [.postShowWindow])
      | .wmOther => .ok (m, [.defWindowProc msg])

/-- Sequential delivery of a list of messages to `wnd_proc`, concatenating the
emitted traces; a panic aborts the run. -/
def runMsgs (m : Machine) : List Msg → Except RustPanic (Machine × List Act)
  | [] => .ok (m, [])
  | msg :: rest =>
      match wnd_proc m msg with
      | .error p => .error p
      | .ok (m1, t1) =>
          match runMsgs m1 rest with
          | .error p => .error p
          | .ok (m2, t2) => .ok (m2, t1 ++ t2)

/-- Modelled from the spec: the native message semantics of window
destruction — the default processing of `WM_CLOSE` destroys the window, and
destroying a window delivers the final "about to be destroyed" notification
(`WM_NCDESTROY`) to the window procedure (§4.4 "Destruction acknowledgment";
the intermediate `WM_DESTROY` hits no arm of `wnd_proc` and is omitted).
This is the teardown sequence for a window closed by native close request
(the user closing the window). -/
def closeViaWmClose (m : Machine) : Except RustPanic (Machine × List Act) :=
  runMsgs m [.wmClose, .wmNcDestroy]

/-- Teardown sequence for a window closed through `WindowHandle::close` /
`Window::close`, which post `BV_WINDOW_MUST_CLOSE`: the posted message is
delivered, its arm calls `DestroyWindow`, which delivers `WM_NCDESTROY`. -/
def closeViaHandle (m : Machine) : Except RustPanic (Machine × List Act) :=
  runMsgs m [.bvWindowMustClose, .wmNcDestroy]

/-- A `WM_DPICHANGED` delivery followed by the `WM_SIZE` with which the native
layer answers the adapter's `SetWindowPos` request: the `WM_SIZE` carries the
client size the adapter just requested (the physical size stored in the slot
after the DPI arm ran). -/
def dpiRoundTrip (m : Machine) (dpi : ℕ) : Except RustPanic (Machine × List Act) :=
  match wnd_proc m (.wmDpiChanged dpi) with
  | .error p => .error p
  | .ok (m1, t1) =>
      let p := (m1.slot.map fun st => st.window_info.physical_size).getD ⟨0, 0⟩
      match wnd_proc m1 (.wmSize p.width p.height) with
      | .error p => .error p
      | .ok (m2, t2) => .ok (m2, t1 ++ t2)

/-- The `WindowInfo` stored in the slot after a run, if any. -/
def infoAfter (r : Except RustPanic (Machine × List Act)) : Option WindowInfo :=
  match r with
  | .error _ => none
  | .ok (m, _) => m.slot.map fun st => st.window_info

/-- `win::WindowHandle` — the embedder-side remote control.  The stored
`Option<HWND>` is modelled as an optional opaque number; the shared
`Arc<AtomicBool>` open flag lives in the `Machine`. -/
structure WindowHandle where
  hwnd : Option ℕ
deriving DecidableEq, Repr

/-- `win::WindowHandle::close`: takes the stored `HWND` and posts
`BV_WINDOW_MUST_CLOSE` to it; with the handle already taken it does nothing.
The returned list is the list of posted messages. -/
def WindowHandle.close (h : WindowHandle) : WindowHandle × List Msg :=
  match h.hwnd with
  | some _ => ({ hwnd := none }, [.bvWindowMustClose])
  | none => (h, [])

/-- `impl HasRawWindowHandle for win::WindowHandle`: returns a `Win32` handle
containing the stored `HWND`, or an empty (`none`) one when the handle was
taken; the shared open flag is not consulted. -/
def WindowHandle.raw_window_handle (h : WindowHandle) : Option ℕ :=
  match h.hwnd with
  | some hwnd => some hwnd
  | none => none

end Win

/-! ## macOS adapter (`src/macos/window.rs`) -/

namespace Mac

/-- Observable actions of the macOS adapter.  `freeState` is the drop of the
`Box<WindowState>` reclaimed by `Box::from_raw` in `stop_and_free` (the drop
also drops the contained `ParentHandle`, which stores `false` into the shared
open flag). -/
inductive Act
  | setFrameSize (size : Size)
  | setBoundsSize (size : Size)
  | onEvent (e : Event)
  | onFrame
  | removeTimer
  | clearIvar
  | appStop
  | nsWindowClose
  | freeState
deriving DecidableEq, Repr

/-- The platform kind stored in a `RawWindowHandle`; the macOS handle code
acts only on the `AppKit` variant. -/
inductive RawHandleKind
  | appKit
  | nonAppKit
deriving DecidableEq, Repr

/-- The two shared `Arc<AtomicBool>` flags created by `ParentHandle::new` and
aliased by the `WindowHandle`. -/
structure SharedFlags where
  close_requested : Bool
  is_open : Bool
deriving DecidableEq, Repr

/-- `macos::Window` (native object presence: `ns_app`/`ns_window` are set only
in parentless mode; `ns_view` always exists while the state is alive). -/
structure Window where
  ns_app : Bool
  ns_window : Bool
  close_requested : Bool
deriving DecidableEq, Repr

/-- `macos::Window::close`: only records the close request; it is observed at
the next frame tick. -/
def Window.close (w : Window) : Window :=
  { w with close_requested := true }

/-- `macos::WindowState` (the handler and the keyboard collaborator are
external; `frame_timer` and `parent_handle` model the presence of the
corresponding `Option` fields). -/
structure WindowState where
  window : Window
  frame_timer : Bool
  parent_handle : Bool
deriving DecidableEq, Repr

/-- `macos::WindowState::trigger_event`: invokes the handler with the event
(the returned `EventStatus` is produced by the external handler). -/
def WindowState.trigger_event (_st : WindowState) (e : Event) : List Act :=
  [.onEvent e]

/-- `macos::WindowState::trigger_frame`: invokes the per-frame hook, then
observes and clears the `close_requested` latch; when it was set and the
window owns an `ns_window` (parentless mode) the native window is closed,
otherwise nothing further happens (the parented branch has no close path,
per the source's `FIXME`). -/
def WindowState.trigger_frame (st : WindowState) : WindowState × List Act :=
  let doClose := st.window.close_requested
  if doClose then
    let w1 := { st.window with close_requested := false }
    if w1.ns_window then
      ({ st with window := { w1 with ns_window := false } }, [.onFrame, .nsWindowClose])
    else
      ({ st with window := w1 }, [.onFrame])
  else
    (st, [.onFrame])

/-- `macos::WindowState::stop_and_free`: reclaims the state box from the
`BASEVIEW_STATE_IVAR`, removes the frame timer, clears the ivar, dispatches
`WillClose`, stops the app in parentless mode, and finally frees the box when
it goes out of scope (dropping the `ParentHandle`, which stores `false` into
the shared open flag).  `is_open` is the flag value before the call; the
second component is its value afterwards. -/
def WindowState.stop_and_free (st : WindowState) (is_open : Bool) : List Act × Bool :=
  ((if st.frame_timer then [.removeTimer] else [])
      ++ [.clearIvar, .onEvent (.Window .WillClose)]
      ++ (if st.window.ns_app then [.appStop] else [])
      ++ [.freeState],
   if st.parent_handle then false else is_open)

/-- `macos::WindowHandle` — the embedder-side remote control; the shared
flags live in a separate `SharedFlags` value. -/
structure WindowHandle where
  raw_window_handle : Option RawHandleKind
deriving DecidableEq, Repr

/-- `macos::WindowHandle::close`: takes the stored raw handle; on the
`AppKit` variant it synchronously runs `stop_and_free` on the view's state,
then stores `true` into the shared `close_requested` flag.  With the handle
already taken it does nothing.  `st` is the state the view's ivar points to. -/
def WindowHandle.close (h : WindowHandle) (st : WindowState) (sh : SharedFlags) :
    WindowHandle × SharedFlags × List Act :=
  match h.raw_window_handle with
  | some k =>
      match k with
      | .appKit =>
          let r := st.stop_and_free sh.is_open
          (⟨none⟩, { close_requested := true, is_open := r.2 }, r.1)
      | .nonAppKit => (⟨none⟩, { sh with close_requested := true }, [])
  | none => (h, sh, [])

/-- `macos::WindowHandle::resize`: on a present `AppKit` handle it reads the
current backing scale factor from the view's window (`1.0` when the view has
no window — `backing = none`), resizes the view natively, recomputes
`WindowInfo` from the requested logical size at that scale factor, feeds a
synthetic `Resized` event and then triggers one manual frame tick.  The
shared open flag is not consulted.  `st` is the state the view's ivar points
to. -/
def WindowHandle.resize (h : WindowHandle) (_sh : SharedFlags) (backing : Option ℚ)
    (st : WindowState) (size : Size) : WindowState × List Act :=
  match h.raw_window_handle with
  | some .appKit =>
      let scale_factor := backing.getD 1
      let window_info := WindowInfo.from_logical_size size scale_factor
      let r := st.trigger_frame
      (r.1, [.setFrameSize size, .setBoundsSize size]
        ++ st.trigger_event (.Window (.Resized window_info))
        ++ r.2)
  | _ => (st, [])

/-- `macos::WindowHandle::is_open`: an atomic read of the shared flag. -/
def WindowHandle.is_open (_h : WindowHandle) (sh : SharedFlags) : Bool :=
  sh.is_open

/-- `impl HasRawWindowHandle for macos::WindowHandle`: the stored handle is
returned only while it is present and the shared open flag is `true`;
otherwise an empty `AppKit` handle (`none`). -/
def WindowHandle.raw_handle_query (h : WindowHandle) (sh : SharedFlags) :
    Option RawHandleKind :=
  match h.raw_window_handle with
  | some k => if sh.is_open then some k else none
  | none => none

/-- `macos::Window::init` (the part after the handler is built): creates the
`ParentHandle`/`WindowHandle` pair (open flag starts `true`), keeps the
`ParentHandle` inside the state only in parented mode — in parentless mode it
is dropped on the spot, storing `false` into the open flag — then publishes
the state pointer in the view's ivar and arms the frame timer. -/
def init (parented : Bool) (w : Window) : WindowHandle × SharedFlags × WindowState :=
  (⟨some .appKit⟩,
   { close_requested := false, is_open := if parented then true else false },
   { window := w, frame_timer := true, parent_handle := parented })

end Mac

/-! ## Shared fixtures and helpers for the claim theorems -/

/-- The trace of a Windows run (empty when the run panicked). -/
def Win.traceOf (r : Except Win.RustPanic (Win.Machine × List Win.Act)) : List Win.Act :=
  match r with
  | .ok (_, t) => t
  | .error _ => []

/-- The machine a Windows run ended in (`none` when the run panicked). -/
def Win.machineAfter (r : Except Win.RustPanic (Win.Machine × List Win.Act)) :
    Option Win.Machine :=
  match r with
  | .ok (m, _) => some m
  | .error _ => none

/-- A concrete Windows window state: a parented window opened at logical
333×333 with scale policy "track system DPI" (initial scale factor 1). -/
def Win.exState : Win.WindowState :=
  { window_class := 7
    window_info := WindowInfo.from_logical_size ⟨333, 333⟩ 1
    parent_handle := true
    mouse_button_counter := 0
    scale_policy := .SystemScaleFactor
    dw_style := 3 }

/-- A live machine for `Win.exState`: slot published, no borrow in progress,
open flag true. -/
def Win.exMachine : Win.Machine :=
  { slot := some Win.exState, borrowed := false, is_open := true }

/-- A concrete live macOS state for an embedded (parented) window. -/
def Mac.exState : Mac.WindowState :=
  { window := { ns_app := false, ns_window := false, close_requested := false }
    frame_timer := true
    parent_handle := true }

/-- A button interleaving is a list of (button, is-down) pairs; this maps it
to the corresponding native button messages. -/
def Win.btnMsgs (es : List (MouseButton × Bool)) : List Win.Msg :=
  es.map fun e => .wmMouseButton (some e.1) e.2

/-- Number of button-down events in an interleaving. -/
def Win.downs (es : List (MouseButton × Bool)) : ℕ :=
  es.countP fun e => e.2

/-- Number of button-up events in an interleaving. -/
def Win.ups (es : List (MouseButton × Bool)) : ℕ :=
  es.countP fun e => !e.2

/-- One step of the `mouse_button_counter` update performed by the button arm
of `wnd_proc`: `saturating_add(1)` on a down, `saturating_sub(1)` on an up. -/
def Win.capStep (c : ℕ) (isDown : Bool) : ℕ :=
  if isDown then c + 1 else c - 1

/-- The `mouse_button_counter` after delivering a button interleaving,
starting from counter value `c`. -/
def Win.capCounter (c : ℕ) : List (MouseButton × Bool) → ℕ
  | [] => c
  | e :: es => Win.capCounter (Win.capStep c e.2) es

/-- The action trace the button arm of `wnd_proc` emits for a button
interleaving delivered from counter value `c` (each step: `SetCapture` on a
down; `ReleaseCapture` on an up that brings the counter to zero; the handler
dispatch; the fall-through to `DefWindowProcW`). -/
def Win.capTrace (c : ℕ) : List (MouseButton × Bool) → List Win.Act
  | [] => []
  | e :: es =>
      (if e.2 then
        [.setCapture, .onEvent (.Mouse (.ButtonPressed e.1)),
         .defWindowProc (.wmMouseButton (some e.1) e.2)]
      else
        (if c - 1 = 0 then [.releaseCapture] else [])
          ++ [.onEvent (.Mouse (.ButtonReleased e.1)),
              .defWindowProc (.wmMouseButton (some e.1) e.2)])
      ++ Win.capTrace (Win.capStep c e.2) es

/-- The spec's §8 scenario: three button-downs (Left, Right, Middle) followed
by three button-ups in a different order. -/
def Win.exInterleaving : List (MouseButton × Bool) :=
  [(.Left, true), (.Right, true), (.Middle, true),
   (.Middle, false), (.Left, false), (.Right, false)]

/-! ## C1 — order of slot clearing, WillClose dispatch, release and free -/

/-- C1, counterexample.  The claim states that in every window teardown the
association slot is cleared before `WillClose` is dispatched.  On Windows the
opposite happens: in the native close sequence (`WM_CLOSE` followed by the
destruction notification), `WillClose` is dispatched by the `WM_CLOSE` arm
while `GWLP_USERDATA` is still set, and the slot is cleared only later, in the
`WM_NCDESTROY` arm. -/
theorem c1_counterexample :
    (Win.traceOf (Win.closeViaWmClose Win.exMachine)).indexOf
        (.onEvent (.Window .WillClose)) <
      (Win.traceOf (Win.closeViaWmClose Win.exMachine)).indexOf .clearSlot ∧
    .onEvent (.Window .WillClose) ∈ Win.traceOf (Win.closeViaWmClose Win.exMachine) ∧
    .clearSlot ∈ Win.traceOf (Win.closeViaWmClose Win.exMachine) := by
  decide

/-- C1, amended.  On macOS, `stop_and_free` clears the `BASEVIEW_STATE_IVAR`
association slot before dispatching `WillClose` and frees the owning state
block only afterwards.  On Windows, `WillClose` is dispatched on the
`WM_CLOSE` path while `GWLP_USERDATA` is still set, the slot is cleared during
`WM_NCDESTROY`, and the state block is never freed at all. -/
theorem c1_amended :
    (∀ (st : Mac.WindowState) (flag : Bool),
      (st.stop_and_free flag).1.indexOf .clearIvar <
          (st.stop_and_free flag).1.indexOf (.onEvent (.Window .WillClose)) ∧
        (st.stop_and_free flag).1.indexOf (.onEvent (.Window .WillClose)) <
          (st.stop_and_free flag).1.indexOf .freeState ∧
        .clearIvar ∈ (st.stop_and_free flag).1 ∧
        .onEvent (.Window .WillClose) ∈ (st.stop_and_free flag).1 ∧
        .freeState ∈ (st.stop_and_free flag).1) ∧
    (∀ (st : Win.WindowState) (b : Bool),
      Win.closeViaWmClose ⟨some st, false, b⟩ =
        .ok (⟨none, false, b⟩,
          [.onEvent (.Window .WillClose), .defWindowProc .wmClose,
           .unregisterClass st.window_class, .clearSlot, .defWindowProc .wmNcDestroy])) := by
  constructor
  · intro st flag
    obtain ⟨⟨na, nw, cr⟩, ft, ph⟩ := st
    cases na <;> cases nw <;> cases cr <;> cases ft <;> cases ph <;> cases flag <;> decide
  · intro st b
    rfl

/-! ## C2 — exactly one WillClose per closed window -/

/-- C2, counterexample.  The claim states that every closed window receives
exactly one `WillClose`.  On Windows, closing through the handle (or the
engine's `Window::close`) posts `BV_WINDOW_MUST_CLOSE`, whose arm calls
`DestroyWindow` directly: the window is fully torn down (the slot ends up
cleared) and no `WillClose` is ever dispatched. -/
theorem c2_counterexample :
    (Win.traceOf (Win.closeViaHandle Win.exMachine)).count
        (.onEvent (.Window .WillClose)) = 0 ∧
    Win.machineAfter (Win.closeViaHandle Win.exMachine) =
      some { slot := none, borrowed := false, is_open := true } := by
  decide

/-- C2, amended.  On macOS, a handle-initiated close delivers exactly one
`WillClose`, and delivers it before the app is stopped and before the state
block is freed.  On Windows, only the native `WM_CLOSE` path delivers
`WillClose` (exactly once, before the destruction notification); the
handle/engine-initiated close path (`BV_WINDOW_MUST_CLOSE`) tears the window
down with zero `WillClose` dispatches. -/
theorem c2_amended :
    (∀ (st : Mac.WindowState) (flag : Bool),
      (st.stop_and_free flag).1.count (.onEvent (.Window .WillClose)) = 1 ∧
        (st.stop_and_free flag).1.indexOf (.onEvent (.Window .WillClose)) <
          (st.stop_and_free flag).1.indexOf .freeState ∧
        (st.window.ns_app = true → .appStop ∈ (st.stop_and_free flag).1 ∧
          (st.stop_and_free flag).1.indexOf (.onEvent (.Window .WillClose)) <
            (st.stop_and_free flag).1.indexOf .appStop)) ∧
    (∀ (st : Win.WindowState) (b : Bool),
      (Win.traceOf (Win.closeViaWmClose ⟨some st, false, b⟩)).count
          (.onEvent (.Window .WillClose)) = 1 ∧
        (Win.traceOf (Win.closeViaHandle ⟨some st, false, b⟩)).count
          (.onEvent (.Window .WillClose)) = 0) := by
  constructor
  · intro st flag
    obtain ⟨⟨na, nw, cr⟩, ft, ph⟩ := st
    cases na <;> cases nw <;> cases cr <;> cases ft <;> cases ph <;> cases flag <;> decide
  · intro st b
    constructor
    · show List.count _ [Win.Act.onEvent (.Window .WillClose), .defWindowProc .wmClose,
        .unregisterClass st.window_class, .clearSlot, .defWindowProc .wmNcDestroy] = 1
      simp [List.count_cons]
    · show List.count _ [Win.Act.destroyWindow,
        .unregisterClass st.window_class, .clearSlot, .defWindowProc .wmNcDestroy] = 0
      simp [List.count_cons]

/-- C2, witness: the amended statement evaluated for a parentless macOS window
(timer armed, app present) and for the concrete Windows fixture. -/
theorem c2_amended_witness :
    ((Mac.WindowState.mk ⟨true, true, false⟩ true false).stop_and_free true).1.count
        (.onEvent (.Window .WillClose)) = 1 ∧
    .appStop ∈ ((Mac.WindowState.mk ⟨true, true, false⟩ true false).stop_and_free true).1 ∧
    (Win.traceOf (Win.closeViaHandle ⟨some Win.exState, false, true⟩)).count
        (.onEvent (.Window .WillClose)) = 0 :=
  ⟨(c2_amended.1 (Mac.WindowState.mk ⟨true, true, false⟩ true false) true).1,
   ((c2_amended.1 (Mac.WindowState.mk ⟨true, true, false⟩ true false) true).2.2 rfl).1,
   (c2_amended.2 Win.exState true).2⟩

/-! ## C3 — non-blocking try-acquire; dispatch never deadlocks or panics -/

/-- C3, the code bug evaluated at the failing input.  The claim (and the
spec's re-entrancy discipline) require every callback to guard handler
dispatch with a non-blocking try-acquire and never panic.  The `WM_TIMER` arm
does call `try_borrow_mut`, but then — with that guard still live — performs a
second, unconditional `RefCell::borrow_mut`, which panics with
`BorrowMutError` on the very first frame-timer message delivered to a live,
unborrowed window.  (The keyboard arm has the same defect.)  The
contention path itself is handled as claimed: with the borrow already held,
both arms skip the dispatch without panicking. -/
theorem c3_code_bug :
    Win.wnd_proc Win.exMachine (.wmTimer 4242) = .error .borrowMut ∧
    Win.wnd_proc Win.exMachine (.wmKeyboard false 65) = .error .borrowMut ∧
    Win.wnd_proc { Win.exMachine with borrowed := true } (.wmTimer 4242) =
      .ok ({ Win.exMachine with borrowed := true }, []) ∧
    Win.wnd_proc { Win.exMachine with borrowed := true } (.wmKeyboard false 65) =
      .ok ({ Win.exMachine with borrowed := true }, [.defWindowProc (.wmKeyboard false 65)]) := by
  refine ⟨rfl, rfl, rfl, rfl⟩

/-! ## C4 — operations after the open flag is false -/

/-- C4, counterexample.  The claim states that once the shared open flag is
false, every handle operation is a safe no-op performing no native call.  The
macOS `WindowHandle::resize` never consults the flag: with the flag already
false but the raw handle still stored (the situation after a native teardown
the embedder did not initiate), `resize` still performs native calls on the
view (`setFrameSize:` first). -/
theorem c4_counterexample :
    (Mac.SharedFlags.mk false false).is_open = false ∧
    (Mac.WindowHandle.resize ⟨some .appKit⟩ ⟨false, false⟩ (some 2) Mac.exState
        ⟨100, 100⟩).2.head? = some (.setFrameSize ⟨100, 100⟩) ∧
    (Mac.WindowHandle.resize ⟨some .appKit⟩ ⟨false, false⟩ (some 2) Mac.exState
        ⟨100, 100⟩).2 ≠ [] := by
  refine ⟨rfl, rfl, by simp [Mac.WindowHandle.resize, Mac.exState,
    Mac.WindowState.trigger_frame, Mac.WindowState.trigger_event]⟩

/-- C4, amended.  The no-op guarantee is keyed to the handle having been
taken by `close()`, not to the open flag: once the stored raw handle is gone,
`resize`, `close` and the raw-handle query are no-ops returning
default/empty values.  The raw-handle query (macOS) additionally returns the
empty handle whenever the open flag is false; `resize`, however, does not
check the flag (see the counterexample), and the Windows raw-handle query
ignores the flag entirely, returning whatever `HWND` is still stored. -/
theorem c4_amended :
    (∀ (h : Mac.WindowHandle) (sh : Mac.SharedFlags) (backing : Option ℚ)
        (st : Mac.WindowState) (size : Size),
      h.raw_window_handle = none →
        h.resize sh backing st size = (st, []) ∧
        h.close st sh = (h, sh, []) ∧
        h.raw_handle_query sh = none) ∧
    (∀ (h : Mac.WindowHandle) (sh : Mac.SharedFlags),
      sh.is_open = false → h.raw_handle_query sh = none) ∧
    (∀ hw : Win.WindowHandle, hw.hwnd = none →
      hw.raw_window_handle = none ∧ hw.close = (hw, [])) := by
  refine ⟨?_, ?_, ?_⟩
  · intro h sh backing st size hnone
    obtain ⟨raw⟩ := h
    cases hnone
    exact ⟨rfl, rfl, rfl⟩
  · intro h sh hflag
    obtain ⟨raw⟩ := h
    obtain ⟨cr, io⟩ := sh
    cases hflag
    cases raw <;> rfl
  · intro hw hnone
    obtain ⟨hwnd⟩ := hw
    cases hnone
    exact ⟨rfl, rfl⟩

/-- C4, witness: the amended statement evaluated at concrete inputs — a taken
macOS handle, a live handle with the flag down, and a taken Windows handle. -/
theorem c4_amended_witness :
    Mac.WindowHandle.resize ⟨none⟩ ⟨false, false⟩ none Mac.exState ⟨10, 10⟩ =
      (Mac.exState, []) ∧
    Mac.WindowHandle.raw_handle_query ⟨some .appKit⟩ ⟨false, false⟩ = none ∧
    Win.WindowHandle.raw_window_handle ⟨none⟩ = none :=
  ⟨(c4_amended.1 ⟨none⟩ ⟨false, false⟩ none Mac.exState ⟨10, 10⟩ rfl).1,
   c4_amended.2.1 ⟨some .appKit⟩ ⟨false, false⟩ rfl,
   (c4_amended.2.2 ⟨none⟩ rfl).1⟩

/-! ## C5 — idempotence of WindowHandle::close -/

/-- C5, confirmed.  On both platforms `close()` takes the stored native
handle on its first call; any second (or later) call finds it gone, changes
nothing and performs no action — so the close protocol cannot be triggered
twice through the handle, and the single macOS close dispatches `WillClose`
at most once. -/
theorem c5_close_idempotent (hm : Mac.WindowHandle) (st st' : Mac.WindowState)
    (sh : Mac.SharedFlags) (hw : Win.WindowHandle) :
    Mac.WindowHandle.close (Mac.WindowHandle.close hm st sh).1 st'
        (Mac.WindowHandle.close hm st sh).2.1 =
      ((Mac.WindowHandle.close hm st sh).1, (Mac.WindowHandle.close hm st sh).2.1, []) ∧
    (Mac.WindowHandle.close hm st sh).2.2.count (.onEvent (.Window .WillClose)) ≤ 1 ∧
    Win.WindowHandle.close (Win.WindowHandle.close hw).1 =
      ((Win.WindowHandle.close hw).1, []) := by
  obtain ⟨raw⟩ := hm
  obtain ⟨hwnd⟩ := hw
  refine ⟨?_, ?_, ?_⟩
  · rcases raw with _ | k
    · rfl
    · cases k <;> rfl
  · rcases raw with _ | k
    · simp [Mac.WindowHandle.close]
    · cases k
      · obtain ⟨⟨na, nw, cr⟩, ft, ph⟩ := st
        cases na <;> cases nw <;> cases cr <;> cases ft <;> cases ph <;>
          simp [Mac.WindowHandle.close, Mac.WindowState.stop_and_free, List.count_cons]
      · simp [Mac.WindowHandle.close]
  · cases hwnd <;> rfl

/-! ## C6 — lifecycle of the shared open flag -/

/-- C6, counterexample.  The claim states the flag starts true at creation
and transitions to false only on native teardown.  For a non-parented
(parentless/blocking) window, `init` drops the `ParentHandle` on the spot —
the flag is already false when `open` returns, with no teardown having
happened. -/
theorem c6_counterexample :
    (Mac.init false ⟨true, true, false⟩).2.1.is_open = false := by
  rfl

/-- C6, amended.  For parented (embedded) macOS windows the claim holds: the
flag starts true at creation, is untouched while the state lives, and flips
to false exactly when `stop_and_free` drops the state block (which drops the
retained `ParentHandle`).  For non-parented windows the `ParentHandle` is
dropped during `init` itself, so the flag is already false at creation.  On
Windows the teardown sequence never frees the state block, so the flag is
never stored to at all: it keeps its pre-teardown value even after the window
is destroyed. -/
theorem c6_amended :
    (∀ w : Mac.Window, (Mac.init true w).2.1.is_open = true) ∧
    (∀ (w : Mac.Window) (ft : Bool) (flag : Bool),
      ((Mac.WindowState.mk w ft true).stop_and_free flag).2 = false) ∧
    (∀ (w : Mac.Window) (ft : Bool) (flag : Bool),
      ((Mac.WindowState.mk w ft false).stop_and_free flag).2 = flag) ∧
    (∀ w : Mac.Window, (Mac.init false w).2.1.is_open = false) ∧
    (∀ (st : Win.WindowState) (b : Bool),
      Win.machineAfter (Win.closeViaWmClose ⟨some st, false, b⟩) =
        some ⟨none, false, b⟩ ∧
      Win.machineAfter (Win.closeViaHandle ⟨some st, false, b⟩) =
        some ⟨none, false, b⟩) := by
  exact ⟨fun _ => rfl, fun _ _ _ => rfl, fun _ _ _ => rfl, fun _ => rfl,
    fun _ _ => ⟨rfl, rfl⟩⟩

/-! ## C7 — DPI change at fixed logical size -/

/-- Rounding a natural number is the identity. -/
theorem roundNearest_natCast (n : ℕ) : roundNearest (n : ℚ) = n := by
  unfold roundNearest
  rw [show ((n : ℚ) + 1/2) = ((n : ℤ) : ℚ) + (1/2 : ℚ) by push_cast; ring,
    Int.floor_int_add]
  norm_num

/-- C7, counterexample.  The claim promises that after a DPI change the final
`WindowInfo` has an unchanged logical size and a physical size equal to
logical × new-scale.  Physical sizes are integer pixels, so the adapter
rounds: at logical 333×333 and a DPI change to 120 DPI (scale 5/4), the
requested physical size is round(416.25) = 416, and the answering `WM_SIZE`
recomputes the logical size as 416/(5/4) = 332.8 ≠ 333; the physical size
416 likewise differs from 333·(5/4) = 416.25. -/
theorem c7_counterexample :
    Win.infoAfter (Win.dpiRoundTrip Win.exMachine 120) =
      some { logical_size := ⟨1664/5, 1664/5⟩
             physical_size := ⟨416, 416⟩
             scale := 5/4 } ∧
    (1664/5 : ℚ) ≠ 333 ∧ ((416 : ℚ) ≠ 333 * (5/4)) := by
  refine ⟨?_, by norm_num, by norm_num⟩
  simp [Win.infoAfter, Win.dpiRoundTrip, Win.wnd_proc, Win.exMachine, Win.exState,
    WindowInfo.from_logical_size, WindowInfo.from_physical_size, roundNearest]
  norm_num [show Int.toNat 416 = 416 from rfl]

/-- C7, amended.  On a DPI-change notification (system-DPI policy) the
adapter recomputes `WindowInfo` from the new scale factor at the current
logical size and issues a native resize request carrying the new physical
size — the logical size times the new scale factor rounded to whole pixels —
and the answering size notification yields a final `WindowInfo` with that
physical size.  Whenever logical × new-scale is exact in integer pixels (in
particular in the spec's 800×600, scale-2.0 scenario) the final logical size
is unchanged and the final physical size equals logical × new-scale; with a
fractional product the rounding perturbs the final logical size (see the
counterexample). -/
theorem c7_amended (st : Win.WindowState) (b : Bool) (dpi : ℕ)
    (hpol : st.scale_policy = .SystemScaleFactor)
    (hw : ∃ n : ℕ, st.window_info.logical_size.width * ((dpi : ℚ) / 96) = n)
    (hh : ∃ n : ℕ, st.window_info.logical_size.height * ((dpi : ℚ) / 96) = n)
    (hdpi : 0 < dpi) :
    ∃ info : WindowInfo,
      Win.infoAfter (Win.dpiRoundTrip ⟨some st, false, b⟩ dpi) = some info ∧
      info.logical_size = st.window_info.logical_size ∧
      info.scale = (dpi : ℚ) / 96 ∧
      (info.physical_size.width : ℚ) =
        st.window_info.logical_size.width * ((dpi : ℚ) / 96) ∧
      (info.physical_size.height : ℚ) =
        st.window_info.logical_size.height * ((dpi : ℚ) / 96) ∧
      .setWindowPos info.physical_size.width info.physical_size.height ∈
        Win.traceOf (Win.dpiRoundTrip ⟨some st, false, b⟩ dpi) := by
  obtain ⟨nw, hnw⟩ := hw
  obtain ⟨nh, hnh⟩ := hh
  have hs : ((dpi : ℚ) / 96) ≠ 0 := by
    have hd : (dpi : ℚ) ≠ 0 := Nat.cast_ne_zero.mpr (by omega)
    positivity
  have hcomp : Win.infoAfter (Win.dpiRoundTrip ⟨some st, false, b⟩ dpi) =
      some (WindowInfo.from_physical_size
        (WindowInfo.from_logical_size st.window_info.logical_size
          ((dpi : ℚ) / 96)).physical_size ((dpi : ℚ) / 96)) := by
    simp only [Win.infoAfter, Win.dpiRoundTrip, Win.wnd_proc, hpol]
    rfl
  refine ⟨_, hcomp, ?_, rfl, ?_, ?_, ?_⟩
  · simp only [WindowInfo.from_physical_size, WindowInfo.from_logical_size, hnw, hnh,
      roundNearest_natCast, Int.toNat_natCast]
    rw [← hnw, ← hnh, mul_div_cancel_right₀ _ hs, mul_div_cancel_right₀ _ hs]
  · simp only [WindowInfo.from_physical_size, WindowInfo.from_logical_size, hnw,
      roundNearest_natCast, Int.toNat_natCast]
  · simp only [WindowInfo.from_physical_size, WindowInfo.from_logical_size, hnh,
      roundNearest_natCast, Int.toNat_natCast]
  · simp only [Win.traceOf, Win.dpiRoundTrip, Win.wnd_proc, hpol]
    simp [WindowInfo.from_physical_size]

/-- C7, witness: the spec's own scenario — logical 800×600 at scale 1.0, DPI
change to 192 DPI (scale 2.0) — ends with logical size unchanged and physical
size 1600×1200. -/
theorem c7_amended_witness :
    ∃ info : WindowInfo,
      Win.infoAfter (Win.dpiRoundTrip
        ⟨some { window_class := 7
                window_info := WindowInfo.from_logical_size ⟨800, 600⟩ 1
                parent_handle := true
                mouse_button_counter := 0
                scale_policy := .SystemScaleFactor
                dw_style := 3 }, false, true⟩ 192) = some info ∧
      info.logical_size = ⟨800, 600⟩ ∧
      info.scale = 2 ∧
      (info.physical_size.width : ℚ) = 1600 ∧
      (info.physical_size.height : ℚ) = 1200 := by
  obtain ⟨info, h1, h2, h3, h4, h5, -⟩ :=
    c7_amended
      { window_class := 7
        window_info := WindowInfo.from_logical_size ⟨800, 600⟩ 1
        parent_handle := true
        mouse_button_counter := 0
        scale_policy := .SystemScaleFactor
        dw_style := 3 } true 192 rfl
      ⟨1600, by norm_num [WindowInfo.from_logical_size, roundNearest]⟩
      ⟨1200, by norm_num [WindowInfo.from_logical_size, roundNearest]⟩
      (by norm_num)
  refine ⟨info, h1, ?_, ?_, ?_, ?_⟩
  · rw [h2]; norm_num [WindowInfo.from_logical_size, roundNearest]
  · rw [h3]; norm_num
  · rw [h4]; norm_num [WindowInfo.from_logical_size, roundNearest]
  · rw [h5]; norm_num [WindowInfo.from_logical_size, roundNearest]

/-! ## C8 — pointer-capture invariant -/

/-- Bridge: delivering a button interleaving to `wnd_proc` (live slot, no
borrow in progress) succeeds, updates `mouse_button_counter` to `capCounter`
and emits exactly the `capTrace` actions. -/
theorem runMsgs_btnMsgs (es : List (MouseButton × Bool)) :
    ∀ (st : Win.WindowState) (b : Bool),
      Win.runMsgs ⟨some st, false, b⟩ (Win.btnMsgs es) =
        .ok (⟨some { st with
              mouse_button_counter := (Win.capCounter st.mouse_button_counter es) },
            false, b⟩,
          Win.capTrace st.mouse_button_counter es) := by
  induction es with
  | nil => intro st b; rfl
  | cons e tl ih =>
      intro st b
      obtain ⟨btn, d⟩ := e
      cases d
      · have h1 : Win.wnd_proc ⟨some st, false, b⟩ (.wmMouseButton (some btn) false) =
            .ok (⟨some { st with mouse_button_counter := st.mouse_button_counter - 1 },
                false, b⟩,
              (if st.mouse_button_counter - 1 = 0 then [.releaseCapture] else [])
                ++ [.onEvent (.Mouse (.ButtonReleased btn)),
                    .defWindowProc (.wmMouseButton (some btn) false)]) := rfl
        simp only [Win.btnMsgs, List.map_cons, Win.runMsgs, h1]
        simp only [Win.btnMsgs] at ih
        simp only [ih]
        simp [Win.capTrace, Win.capCounter, Win.capStep]
      · have h1 : Win.wnd_proc ⟨some st, false, b⟩ (.wmMouseButton (some btn) true) =
            .ok (⟨some { st with mouse_button_counter := st.mouse_button_counter + 1 },
                false, b⟩,
              [.setCapture, .onEvent (.Mouse (.ButtonPressed btn)),
               .defWindowProc (.wmMouseButton (some btn) true)]) := rfl
        simp only [Win.btnMsgs, List.map_cons, Win.runMsgs, h1]
        simp only [Win.btnMsgs] at ih
        simp only [ih]
        simp [Win.capTrace, Win.capCounter, Win.capStep]

/-- `capTrace` distributes over concatenation of interleavings. -/
theorem capTrace_append (xs : List (MouseButton × Bool)) :
    ∀ (ys : List (MouseButton × Bool)) (c : ℕ),
      Win.capTrace c (xs ++ ys) =
        Win.capTrace c xs ++ Win.capTrace (Win.capCounter c xs) ys := by
  induction xs with
  | nil => intro ys c; simp [Win.capTrace, Win.capCounter]
  | cons e tl ih =>
      intro ys c
      simp [Win.capTrace, Win.capCounter, ih, List.append_assoc]

/-- While the counter stays strictly positive after every event of the
interleaving, no `ReleaseCapture` is emitted. -/
theorem capTrace_no_release (es : List (MouseButton × Bool)) :
    ∀ c : ℕ,
      (∀ k, k < es.length →
        Win.ups (es.take (k+1)) < c + Win.downs (es.take (k+1))) →
      (Win.capTrace c es).count .releaseCapture = 0 := by
  induction es with
  | nil => intro c _; rfl
  | cons e tl ih =>
      intro c hpos
      obtain ⟨btn, d⟩ := e
      cases d
      · have h0 := hpos 0 (by simp)
        simp [List.take_succ_cons, Win.ups, Win.downs] at h0
        have htl : (Win.capTrace (c - 1) tl).count Win.Act.releaseCapture = 0 := by
          refine ih (c - 1) ?_
          intro k hk
          have h2 := hpos (k + 1) (by simpa using Nat.succ_lt_succ hk)
          simp [List.take_succ_cons, Win.ups, Win.downs] at h2 ⊢
          omega
        simp [Win.capTrace, Win.capStep, htl, show ¬(c - 1 = 0) by omega]
      · have htl : (Win.capTrace (c + 1) tl).count Win.Act.releaseCapture = 0 := by
          refine ih (c + 1) ?_
          intro k hk
          have h2 := hpos (k + 1) (by simpa using Nat.succ_lt_succ hk)
          simp [List.take_succ_cons, Win.ups, Win.downs] at h2 ⊢
          omega
        simp [Win.capTrace, Win.capStep, htl]

/-- While the up-count never exceeds the counter plus the down-count on any
prefix, the counter evolves without saturating: `capCounter + ups = c + downs`. -/
theorem capCounter_balance (es : List (MouseButton × Bool)) :
    ∀ c : ℕ,
      (∀ k, k ≤ es.length →
        Win.ups (es.take k) ≤ c + Win.downs (es.take k)) →
      Win.capCounter c es + Win.ups es = c + Win.downs es := by
  induction es with
  | nil => intro c _; simp [Win.capCounter, Win.ups, Win.downs]
  | cons e tl ih =>
      intro c hwf
      obtain ⟨btn, d⟩ := e
      cases d
      · have h1 := hwf 1 (by simp)
        simp [List.take_succ_cons, Win.ups, Win.downs] at h1
        have htl := ih (c - 1) (by
          intro k hk
          have h2 := hwf (k + 1) (by simpa using Nat.succ_le_succ hk)
          simp [List.take_succ_cons, Win.ups, Win.downs] at h2 ⊢
          omega)
        simp [Win.capCounter, Win.capStep, Win.ups, Win.downs] at htl ⊢
        omega
      · have htl := ih (c + 1) (by
          intro k hk
          have h2 := hwf (k + 1) (by simpa using Nat.succ_le_succ hk)
          simp [List.take_succ_cons, Win.ups, Win.downs] at h2 ⊢
          omega)
        simp [Win.capCounter, Win.capStep, Win.ups, Win.downs] at htl ⊢
        omega

/-- C8, confirmed.  For any single-episode interleaving of button events —
nonempty, as many ups as downs in total, and with at least one button held
at every interior point — delivered to a live window whose counter starts at
zero: the run succeeds (no panic), the very first emitted action is the
`SetCapture` of the first button-down, exactly one `ReleaseCapture` is
emitted over the whole run, and none is emitted before the final button-up
(the trace of the interleaving without its last event contains no release,
and leaves exactly one button pressed), so capture is held continuously from
the first down to the last up and released exactly once, on the up that
releases the last pressed button. -/
theorem c8_capture_invariant (st : Win.WindowState) (b : Bool)
    (es : List (MouseButton × Bool))
    (hc0 : st.mouse_button_counter = 0)
    (hne : es ≠ [])
    (hbal : Win.ups es = Win.downs es)
    (hint : ∀ k, k < es.length → 0 < k →
      Win.ups (es.take k) < Win.downs (es.take k)) :
    ∃ T, Win.runMsgs ⟨some st, false, b⟩ (Win.btnMsgs es) =
        .ok (⟨some { st with mouse_button_counter := 0 }, false, b⟩, T) ∧
      T.head? = some .setCapture ∧
      T.count .releaseCapture = 1 ∧
      ∃ T', Win.runMsgs ⟨some st, false, b⟩ (Win.btnMsgs es.dropLast) =
          .ok (⟨some { st with mouse_button_counter := 1 }, false, b⟩, T') ∧
        T'.count .releaseCapture = 0 := by
  -- the first event must be a button-down
  have hfirst : ∃ btn tl, es = (btn, true) :: tl := by
    rcases es with _ | ⟨⟨btn, d⟩, tl⟩
    · exact absurd rfl hne
    · cases d
      · exfalso
        rcases tl with _ | ⟨f, tl'⟩
        · simp [Win.ups, Win.downs] at hbal
        · have h1 := hint 1 (by simp) (by omega)
          simp [List.take_succ_cons, Win.ups, Win.downs] at h1
      · exact ⟨btn, tl, rfl⟩
  have hlen2 : 2 ≤ es.length := by
    rcases es with _ | ⟨e, tl⟩
    · exact absurd rfl hne
    · rcases tl with _ | ⟨f, tl'⟩
      · exfalso
        obtain ⟨btn, d⟩ := e
        cases d <;> simp [Win.ups, Win.downs, List.countP_cons] at hbal
      · simp only [List.length_cons]
        omega
  set dl := es.dropLast with hdl
  have hdl_eq : dl = es.take (es.length - 1) := by
    rw [hdl, List.dropLast_eq_take]
  have hdl_len : dl.length = es.length - 1 := by
    rw [hdl, List.length_dropLast]
  have hdl_take : ∀ k, k ≤ es.length - 1 → dl.take k = es.take k := by
    intro k hk
    rw [hdl_eq, List.take_take]
    congr 1
    omega
  have hsplit : dl ++ [es.getLast hne] = es := List.dropLast_append_getLast hne
  set L := es.getLast hne with hL
  have hdl_strict : Win.ups dl < Win.downs dl := by
    have h := hint (es.length - 1) (by omega) (by omega)
    rwa [← hdl_eq] at h
  -- the last event is a button-up
  have hLup : L.2 = false := by
    by_contra hLd
    have hl2 : L.2 = true := by
      revert hLd
      cases L.2 <;> simp
    have h1 : Win.ups es = Win.ups dl := by
      rw [← hsplit]
      simp [Win.ups, List.countP_append, hl2]
    have h2 : Win.downs es = Win.downs dl + 1 := by
      rw [← hsplit]
      simp [Win.downs, List.countP_append, hl2]
    omega
  -- prefix well-formedness (non-strict) for the balance lemma
  have hwf_es : ∀ k, k ≤ es.length →
      Win.ups (es.take k) ≤ 0 + Win.downs (es.take k) := by
    intro k hk
    rcases Nat.eq_zero_or_pos k with hk0 | hkpos
    · subst hk0; simp [Win.ups, Win.downs]
    · rcases Nat.lt_or_ge k es.length with hklt | hkge
      · have := hint k hklt hkpos
        omega
      · have hk' : k = es.length := le_antisymm hk hkge
        subst hk'
        simp [List.take_length, hbal]
  have hwf_dl : ∀ k, k ≤ dl.length →
      Win.ups (dl.take k) ≤ 0 + Win.downs (dl.take k) := by
    intro k hk
    rw [hdl_take k (by omega)]
    exact hwf_es k (by omega)
  -- counter after the whole run is 0; after all-but-last it is 1
  have hcnt_es : Win.capCounter 0 es = 0 := by
    have := capCounter_balance es 0 hwf_es
    omega
  have hcnt_dl : Win.capCounter 0 dl = 1 := by
    have hbal_dl := capCounter_balance dl 0 hwf_dl
    have h1 : Win.ups es = Win.ups dl + 1 := by
      rw [← hsplit]
      simp [Win.ups, List.countP_append, hLup]
    have h2 : Win.downs es = Win.downs dl := by
      rw [← hsplit]
      simp [Win.downs, List.countP_append, hLup]
    omega
  -- no release before the last event
  have hrel_dl : (Win.capTrace 0 dl).count .releaseCapture = 0 := by
    refine capTrace_no_release dl 0 ?_
    intro k hk
    rw [hdl_take (k+1) (by omega)]
    have := hint (k+1) (by omega) (by omega)
    omega
  -- exactly one release over the whole run, emitted by the last event
  have hrel_es : (Win.capTrace 0 es).count .releaseCapture = 1 := by
    rw [← hsplit, capTrace_append, List.count_append, hcnt_dl, hrel_dl]
    simp [Win.capTrace, Win.capStep, hLup, List.count_cons]
  -- the trace opens with the SetCapture of the first down
  have hhead : (Win.capTrace 0 es).head? = some .setCapture := by
    obtain ⟨btn0, tl0, hes⟩ := hfirst
    rw [hes]
    simp [Win.capTrace]
  refine ⟨Win.capTrace 0 es, ?_, hhead, hrel_es, Win.capTrace 0 dl, ?_, hrel_dl⟩
  · rw [runMsgs_btnMsgs es st b, hc0, hcnt_es]
  · rw [runMsgs_btnMsgs dl st b, hc0, hcnt_dl]

/-- C8, witness: the spec's §8 scenario — downs Left, Right, Middle, then ups
Middle, Left, Right — on the concrete Windows fixture. -/
theorem c8_witness :
    (Win.exState.mouse_button_counter = 0 ∧
      Win.exInterleaving ≠ [] ∧
      Win.ups Win.exInterleaving = Win.downs Win.exInterleaving ∧
      (∀ k, k < Win.exInterleaving.length → 0 < k →
        Win.ups (Win.exInterleaving.take k) < Win.downs (Win.exInterleaving.take k))) ∧
    ∃ T, Win.runMsgs ⟨some Win.exState, false, true⟩ (Win.btnMsgs Win.exInterleaving) =
        .ok (⟨some { Win.exState with mouse_button_counter := 0 }, false, true⟩, T) ∧
      T.head? = some .setCapture ∧
      T.count .releaseCapture = 1 ∧
      ∃ T', Win.runMsgs ⟨some Win.exState, false, true⟩
          (Win.btnMsgs Win.exInterleaving.dropLast) =
          .ok (⟨some { Win.exState with mouse_button_counter := 1 }, false, true⟩, T') ∧
        T'.count .releaseCapture = 0 :=
  ⟨⟨rfl, by decide, by decide, by decide⟩,
   c8_capture_invariant Win.exState true Win.exInterleaving rfl (by decide) (by decide)
     (by decide)⟩

/-! ## C9 — WindowHandle::resize dispatches Resized then one frame tick -/

/-- C9, confirmed.  On an open macOS window, `WindowHandle::resize(size)`
resizes the view natively, recomputes `WindowInfo` from the requested logical
size at the backing scale factor read at call time (1.0 when the view has no
window), dispatches one synthetic `Resized` event carrying that `WindowInfo`,
and then runs `trigger_frame` — whose trace begins with, and contains exactly
one, invocation of the per-frame hook — before returning. -/
theorem c9_resize_event_then_frame (h : Mac.WindowHandle) (sh : Mac.SharedFlags)
    (backing : Option ℚ) (st : Mac.WindowState) (size : Size)
    (_hopen : sh.is_open = true)
    (hraw : h.raw_window_handle = some .appKit) :
    h.resize sh backing st size =
      (st.trigger_frame.1,
        [.setFrameSize size, .setBoundsSize size,
         .onEvent (.Window (.Resized (WindowInfo.from_logical_size size (backing.getD 1))))]
        ++ st.trigger_frame.2) ∧
    st.trigger_frame.2.head? = some .onFrame ∧
    st.trigger_frame.2.count .onFrame = 1 := by
  obtain ⟨raw⟩ := h
  cases hraw
  refine ⟨rfl, ?_, ?_⟩ <;>
    obtain ⟨⟨na, nw, cr⟩, ft, ph⟩ := st <;>
      cases nw <;> cases cr <;> rfl

/-- C9, witness: a concrete resize of an open embedded window at backing
scale 2 and logical size 400×300. -/
theorem c9_witness :
    Mac.WindowHandle.resize ⟨some .appKit⟩ ⟨false, true⟩ (some 2) Mac.exState ⟨400, 300⟩ =
      (Mac.exState.trigger_frame.1,
        [.setFrameSize ⟨400, 300⟩, .setBoundsSize ⟨400, 300⟩,
         .onEvent (.Window (.Resized (WindowInfo.from_logical_size ⟨400, 300⟩ 2)))]
        ++ Mac.exState.trigger_frame.2) ∧
    Mac.exState.trigger_frame.2.head? = some .onFrame ∧
    Mac.exState.trigger_frame.2.count .onFrame = 1 := by
  have h := c9_resize_event_then_frame ⟨some .appKit⟩ ⟨false, true⟩ (some 2) Mac.exState
    ⟨400, 300⟩ rfl rfl
  simpa using h

/-! ## C10 — engine close of a parented macOS window is silently dropped -/

/-- C10, confirmed.  On macOS, for a parented window (no owned `ns_window`),
the engine-side `Window::close` only sets the `close_requested` latch.  The
next frame tick observes and clears the latch, but — holding no `ns_window` —
performs no native teardown: its whole trace is the one per-frame hook call
(no `WillClose`, no native close, no free), and the state is left exactly as
before the close request. -/
theorem c10_parented_close_dropped (st : Mac.WindowState)
    (hpar : st.window.ns_window = false) :
    (Mac.Window.close st.window).close_requested = true ∧
    Mac.WindowState.trigger_frame { st with window := Mac.Window.close st.window } =
      ({ st with window := { st.window with close_requested := false } }, [.onFrame]) := by
  obtain ⟨⟨na, nw, cr⟩, ft, ph⟩ := st
  simp only at hpar
  cases hpar
  exact ⟨rfl, rfl⟩

/-- C10, witness: the concrete embedded fixture. -/
theorem c10_witness :
    (Mac.Window.close Mac.exState.window).close_requested = true ∧
    Mac.WindowState.trigger_frame { Mac.exState with window := Mac.Window.close Mac.exState.window } =
      ({ Mac.exState with window := { Mac.exState.window with close_requested := false } },
        [.onFrame]) :=
  c10_parented_close_dropped Mac.exState rfl

end Baseview
